import Mathlib

/-!
Verification of the SentinelSecure scan-orchestration and network-discovery
pipeline (`backend/server.py`, `backend/services/network_scanner.py`,
`backend/models.py`) against its natural-language specification.

Strings from the Python side are embedded as `List Char`; `datetime`
timestamps are embedded as `Nat` instants; MongoDB collections are embedded
as lists of records in insertion order.
-/

namespace SentinelSecure

/-! ## Python string primitives

These model the exact Python string operations used by the source:
`c in s` (character membership), `s.rsplit('.', 1)`, `s.split('-')`,
`int(s)`, `str(i)`, `s.lower()`, and substring containment (`'x' in s`).
-/

/-- Python `c in s` for a single character `c`. -/
def pyElem (c : Char) : List Char → Bool
  | [] => false
  | x :: t => x = c || pyElem c t

/-- Value of a list of decimal digit characters, most significant first
(the numeric value Python `int` assigns to a plain digit string). -/
def digitsVal (l : List Char) : Nat :=
  l.foldl (fun a c => 10 * a + (c.toNat - 48)) 0

/-- Parses a nonempty all-digit string to its value, `none` otherwise. -/
def digitsOnly? (l : List Char) : Option Nat :=
  if !l.isEmpty && l.all Char.isDigit then some (digitsVal l) else none

/-- Python `int(s)` on the strings reaching it here: an optional single
sign followed by decimal digits (Python's surrounding-whitespace and
underscore allowances are never exercised by the call sites modelled). -/
def pyInt? : List Char → Option Int
  | [] => none
  | c :: t =>
    if c = '-' then (digitsOnly? t).map (fun n => -(n : Int))
    else if c = '+' then (digitsOnly? t).map (fun n => (n : Int))
    else (digitsOnly? (c :: t)).map (fun n => (n : Int))

/-- Python `s.rsplit('.', 1)`: the parts before and after the last `'.'`,
or `none` when the string has no `'.'` (in which case the source's tuple
unpacking raises). -/
def rsplitDot : List Char → Option (List Char × List Char)
  | [] => none
  | c :: t =>
    match rsplitDot t with
    | some (a, b) => some (c :: a, b)
    | none => if c = '.' then some ([], t) else none

/-- Python `s.split(c)` for a one-character separator. -/
def pySplit (c : Char) : List Char → List (List Char)
  | [] => [[]]
  | x :: t =>
    match pySplit c t with
    | [] => [[]]
    | h :: r => if x = c then [] :: h :: r else (x :: h) :: r

/-- Python `str(i)` for an `int`. -/
def intToChars (i : Int) : List Char :=
  if i < 0 then '-' :: Nat.toDigits 10 (-i).toNat else Nat.toDigits 10 i.toNat

/-- Python `range(a, b + 1)` as an explicit list. -/
def intRange (a b : Int) : List Int :=
  (List.range (b + 1 - a).toNat).map (fun k => a + (k : Int))

/-- Does `s` start with `pre`? (building block for substring containment). -/
def startsWithL : List Char → List Char → Bool
  | [], _ => true
  | _ :: _, [] => false
  | a :: as, b :: bs => a = b && startsWithL as bs

/-- Python `needle in s` substring containment. -/
def hasSubstr (needle : List Char) : List Char → Bool
  | [] => needle.isEmpty
  | c :: t => startsWithL needle (c :: t) || hasSubstr needle t

/-- Python `s.lower()` (the hostnames involved are ASCII, where Python
`str.lower` agrees with `Char.toLower`). -/
def pyLower (l : List Char) : List Char := l.map Char.toLower

/-! ## External address parsing (netaddr)

`netaddr` is a third-party library.  The source uses `IPAddress(target)`
purely as a validity check and `IPNetwork(target)` as a parse-and-normalize
step; both are modelled for strict IPv4 dotted-quad inputs, the only forms
the specification's accepted grammar admits.
-/

/-- One decimal IPv4 octet: nonempty, all digits, value at most 255. -/
def octetValid (l : List Char) : Bool :=
  !l.isEmpty && l.all Char.isDigit && digitsVal l ≤ 255

/-- Modelled from `netaddr.IPAddress` validation, restricted to strict
IPv4 dotted-quad form: four '.'-separated decimal octets in 0..255. -/
def ipAddressValid (l : List Char) : Bool :=
  match pySplit '.' l with
  | [a, b, c, d] => octetValid a && octetValid b && octetValid c && octetValid d
  | _ => false

/-- Modelled from `netaddr.IPNetwork` parse followed by `str`, restricted
to strict IPv4 CIDR `a.b.c.d/n` with `0 ≤ n ≤ 32`; on such canonical input
`str(IPNetwork(s))` returns `s` itself. -/
def ipNetworkNorm? (l : List Char) : Option (List Char) :=
  match pySplit '/' l with
  | [addr, mask] =>
    if ipAddressValid addr && !mask.isEmpty && mask.all Char.isDigit
        && digitsVal mask ≤ 32 then some l else none
  | _ => none

/-! ## TargetResolver: `NetworkScanner._parse_target`

Faithful to `network_scanner.py` lines 212-239.  The Python function
returns a list of CIDR-suffixed target strings and returns `[]` on any
failure (every exception inside the `try` is caught and mapped to `[]`);
the caller treats an empty result as an invalid target and raises.
-/

/-- `NetworkScanner._parse_target`: parse and validate a scan target.
Branches in source order: CIDR when the string contains a `'/'`,
last-octet range when it contains both `'-'` and `'.'`, otherwise a
single IP.  An empty result is the failure (InvalidTargetError) signal. -/
def parse_target (target : List Char) : List (List Char) :=
  if pyElem '/' target then
    match ipNetworkNorm? target with
    | some s => [s]
    | none => []
  else if pyElem '-' target && pyElem '.' target then
    match rsplitDot target with
    | none => []
    | some (base_ip, range_part) =>
      if pyElem '-' range_part then
        match pySplit '-' range_part with
        | [s, e] =>
          match pyInt? s, pyInt? e with
          | some a, some b =>
            (intRange a b).map (fun i => base_ip ++ '.' :: (intToChars i ++ ['/', '3', '2']))
          | _, _ => []
        | _ => []
      else []
  else
    if ipAddressValid target then [target ++ ['/', '3', '2']] else []

/-! ## Data model (`models.py`) -/

/-- `models.DeviceType`. -/
inductive DeviceType where
  | router
  | switch
  | server
  | workstation
  | mobile
  | iot
  | printer
  | unknown
deriving DecidableEq

/-- Per-port service record captured by `port_scan_device`. -/
structure ServiceInfo where
  port : Nat
  protocol : String
  state : String
  name : String
  product : String
  version : String
  extrainfo : String
deriving DecidableEq

/-- `models.Device` (timestamps as `Nat` instants). -/
structure Device where
  id : String
  ip_address : String
  mac_address : Option String := none
  hostname : Option String := none
  device_type : DeviceType := DeviceType.unknown
  os_name : Option String := none
  os_version : Option String := none
  vendor : Option String := none
  open_ports : List Nat := []
  services : List (Nat × ServiceInfo) := []
  last_seen : Nat
  first_discovered : Nat
  is_active : Bool := true
  created_at : Nat := 0
  updated_at : Nat := 0
deriving DecidableEq

/-- `models.ThreatLevel`. -/
inductive ThreatLevel where
  | critical
  | high
  | medium
  | low
  | info
deriving DecidableEq

/-- `models.Vulnerability` (the fields the merge logic touches). -/
structure Vulnerability where
  id : String
  device_id : String
  cve_id : Option String := none
  title : String
  description : String := ""
  severity : ThreatLevel := ThreatLevel.info
  port : Option Nat := none
  affected_service : Option String := none
  discovered_at : Nat := 0
  is_resolved : Bool := false
deriving DecidableEq

/-- `models.ScanStatus`. -/
inductive ScanStatus where
  | pending
  | running
  | completed
  | failed
  | cancelled
deriving DecidableEq

/-- `models.ScanResult`: the persisted scan-job record. -/
structure ScanResult where
  id : String
  target : String
  status : ScanStatus := ScanStatus.pending
  started_at : Nat := 0
  completed_at : Option Nat := none
  devices_discovered : Nat := 0
  vulnerabilities_found : Nat := 0
  error_message : Option String := none
deriving DecidableEq

/-! ## DeviceClassifier: `NetworkScanner._classify_device_type`

Faithful to `network_scanner.py` lines 345-369.  Python converts
`device.open_ports` to a `set` and then performs only membership tests,
which agree with list membership, embedded here via `List.contains`.
-/

/-- Python `device.hostname and 'router' in device.hostname.lower()`:
the hostname is present, truthy (nonempty) and contains "router"
case-insensitively. -/
def hostname_mentions_router : Option String → Bool
  | none => false
  | some h => !h.isEmpty && hasSubstr "router".toList (pyLower h.toList)

/-- Router rule condition: some router-indicator port is open and the
hostname mentions "router". -/
def router_rule (device : Device) : Bool :=
  [23, 80, 443, 161, 22].any (fun p => device.open_ports.contains p)
    && hostname_mentions_router device.hostname

/-- Server rule condition (the "server" port signature). -/
def server_signature (device : Device) : Bool :=
  [80, 443, 22, 21, 25, 53, 110, 143, 993, 995].any
    (fun p => device.open_ports.contains p)

/-- Printer rule condition (the "printer" port signature). -/
def printer_signature (device : Device) : Bool :=
  [515, 631, 9100].any (fun p => device.open_ports.contains p)

/-- Switch rule condition: port 161 open and neither 80 nor 443 open. -/
def switch_rule (device : Device) : Bool :=
  device.open_ports.contains 161
    && !(device.open_ports.contains 80 || device.open_ports.contains 443)

/-- Workstation rule condition (the "workstation" port signature). -/
def workstation_signature (device : Device) : Bool :=
  [135, 139, 445, 3389].any (fun p => device.open_ports.contains p)

/-- `NetworkScanner._classify_device_type`: ordered first-match-wins rule
chain over the open-port set and hostname. -/
def classify_device_type (device : Device) : DeviceType :=
  if router_rule device then DeviceType.router
  else if server_signature device then DeviceType.server
  else if printer_signature device then DeviceType.printer
  else if switch_rule device then DeviceType.switch
  else if workstation_signature device then DeviceType.workstation
  else DeviceType.unknown

/-! ## External collaborator outcomes

The scanner calls out to nmap (`self.nm.scan`), the system resolver
(`socket.gethostbyaddr`) and the system ARP table (`subprocess` + `arp`).
Each call's outcome is an input of the embedding: `Except` captures a call
that may raise, `Option` a lookup that may miss.
-/

/-- Python `d.get(k)` on a string-valued dict (association list). -/
def pyDictGet : List (String × String) → String → Option String
  | [], _ => none
  | (k, v) :: t, key => if k = key then some v else pyDictGet t key

/-- Python `d.get(k, dflt)`. -/
def pyDictGetD (d : List (String × String)) (key dflt : String) : String :=
  (pyDictGet d key).getD dflt

/-- Python `options.get(k)` on the scan-options dict (the only recognized
option is boolean-valued). -/
def pyOptGet : List (String × Bool) → String → Option Bool
  | [], _ => none
  | (k, v) :: t, key => if k = key then some v else pyOptGet t key

/-- One per-port entry of an nmap port-scan result: the port, its reported
state (`"open"`, `"filtered"` or `"closed"`) and its service facts. -/
structure PortEntry where
  port : Nat
  state : String
  service : ServiceInfo
deriving DecidableEq

/-- Environment of one `_scan_device_details` call: the outcomes of the
external lookups made for that host.  `unexpected` is an exception
escaping the body into the function's own catch-all handler. -/
structure HostEnv where
  newId : String
  now : Nat
  hostname : Option String
  portScan : Except String (List PortEntry)
  osScan : Except String (List (List (String × String)))
  mac : Option String
  unexpected : Option String

/-- `NetworkScanner.port_scan_device` as observed by `_scan_device_details`:
on an nmap failure the function returns an error dict with no `open_ports`
key (`none` here); otherwise the `"open"` entries give the open-port list
and the per-port service map (an absent host is the empty entry list). -/
def port_scan_device (scan : Except String (List PortEntry)) :
    Option (List Nat × List (Nat × ServiceInfo)) :=
  match scan with
  | Except.error _ => none
  | Except.ok entries =>
    some ((entries.filter (fun e => e.state = "open")).map (fun e => e.port),
          (entries.filter (fun e => e.state = "open")).map (fun e => (e.port, e.service)))

/-- `NetworkScanner._detect_os`: on an nmap failure, a missing host, or an
empty `osmatch` list the result is `None`; otherwise a dict holding the
`name`, `accuracy` and `vendor` entries of the first (best) match. -/
def detect_os (osScan : Except String (List (List (String × String)))) :
    Option (List (String × String)) :=
  match osScan with
  | Except.error _ => none
  | Except.ok [] => none
  | Except.ok (best :: _) =>
    some [("name", pyDictGetD best "name" ""),
          ("accuracy", pyDictGetD best "accuracy" ""),
          ("vendor", pyDictGetD best "vendor" "")]

/-- `NetworkScanner._scan_device_details`: builds the Device record for one
responsive host.  Each sub-step is best-effort; an exception escaping the
body is caught by the function itself, which then returns `None`. -/
def scan_device_details (ip : String) (options : List (String × Bool))
    (env : HostEnv) : Option Device :=
  match env.unexpected with
  | some _ => none
  | none =>
    let device : Device :=
      { id := env.newId, ip_address := ip, last_seen := env.now,
        first_discovered := env.now, created_at := env.now, updated_at := env.now }
    let device :=
      match env.hostname with
      | some h => { device with hostname := some h }
      | none => device
    let device :=
      match port_scan_device env.portScan with
      | some (ports, svcs) => { device with open_ports := ports, services := svcs }
      | none => device
    let device :=
      if (pyOptGet options "os_detection").getD false then
        match detect_os env.osScan with
        | some os_info =>
          { device with os_name := pyDictGet os_info "name",
                        os_version := pyDictGet os_info "version",
                        vendor := pyDictGet os_info "vendor" }
        | none => device
      else device
    let device := { device with device_type := classify_device_type device }
    let device :=
      match env.mac with
      | some m => { device with mac_address := some m }
      | none => device
    some device

/-! ## HostDiscovery: ping sweep, ARP scan and the per-range loop -/

/-- `NetworkScanner._ping_sweep`: the hosts nmap reports up, or the empty
set when the sweep raises (the function catches its own failures). -/
def ping_sweep (sweep : Except String (List String)) : List String :=
  match sweep with
  | Except.ok hosts => hosts
  | Except.error _ => []

/-- `NetworkScanner._arp_scan`: the ARP-table addresses lying inside the
target range (`inRange` is the netaddr membership test
`IPAddress(ip) in IPNetwork(target)`), or the empty set when reading the
table raises (the function catches its own failures). -/
def arp_scan (table : Except String (List String)) (inRange : String → Bool) :
    List String :=
  match table with
  | Except.ok ips => ips.filter inRange
  | Except.error _ => []

/-- Python `ping_results.update(arp_results)` observed on dict keys:
existing keys keep their position, new keys are appended. -/
def mergeResponsive (ping arp : List String) : List String :=
  ping ++ arp.filter (fun ip => !ping.contains ip)

/-- The per-host loop of `discover_network_devices`: profile each
responsive host, appending the Device on success and skipping the host
when profiling returns `None` or raises (both surface as `none` here). -/
def collectHosts (hosts : List String) (profile : String → Option Device) :
    List Device :=
  match hosts with
  | [] => []
  | ip :: rest =>
    match profile ip with
    | some d => d :: collectHosts rest profile
    | none => collectHosts rest profile

/-- Environment of one discovery job, per target range and per host.
`isLocal` is `_is_local_network` (it defers entirely to netaddr private
range containment, so its verdict is an input here). -/
structure DiscoveryEnv where
  ping : List Char → Except String (List String)
  isLocal : List Char → Bool
  arp : List Char → Except String (List String)
  inRange : List Char → String → Bool
  host : String → HostEnv

/-- The body of `discover_network_devices` for one parsed target range:
ping sweep, ARP union on local networks, then per-host profiling. -/
def range_devices (r : List Char) (options : List (String × Bool))
    (env : DiscoveryEnv) : List Device :=
  let ping_results := ping_sweep (env.ping r)
  let responsive :=
    if env.isLocal r then
      mergeResponsive ping_results (arp_scan (env.arp r) (env.inRange r))
    else ping_results
  collectHosts responsive (fun ip => scan_device_details ip options (env.host ip))

/-- `NetworkScanner.discover_network_devices`: parse the target, probe
each range, profile each responsive host.  The function catches every
exception itself and reports an error through its metadata, never by
raising: an unparsable target yields `([], error message)`. -/
def discover_network_devices (target : List Char) (options : List (String × Bool))
    (env : DiscoveryEnv) : List Device × Option String :=
  let ip_ranges := parse_target target
  if ip_ranges.isEmpty then
    ([], some ("Invalid target format: " ++ target.asString))
  else
    ((ip_ranges.map (fun r => range_devices r options env)).flatten, none)

/-! ## ScanOrchestrator store merges (`server.run_scan`)

The MongoDB `devices` and `vulnerabilities` collections are lists of
records in insertion order; `find_one` returns the first match and
`update_one` rewrites the first match.
-/

/-- `db.devices.find_one({"ip_address": ip})`. -/
def find_by_ip : List Device → String → Option Device
  | [], _ => none
  | d :: t, ip => if d.ip_address = ip then some d else find_by_ip t ip

/-- `db.devices.update_one({"ip_address": d.ip_address}, {$set: {**d.dict(),
"updated_at": now}})`: the first record with the device's IP is replaced by
the incoming device with `updated_at` stamped to `now` (the `$set` document
lists every Device field, so every field takes the incoming value). -/
def update_first_by_ip (store : List Device) (d : Device) (now : Nat) :
    List Device :=
  match store with
  | [] => []
  | x :: t =>
    if x.ip_address = d.ip_address then { d with updated_at := now } :: t
    else x :: update_first_by_ip t d now

/-- The per-device upsert of `run_scan` (discovery branch): update the
existing record for the IP when one exists, insert otherwise. -/
def merge_device (store : List Device) (d : Device) (now : Nat) : List Device :=
  match find_by_ip store d.ip_address with
  | some _ => update_first_by_ip store d now
  | none => store ++ [d]

/-- The device-save loop of `run_scan` over all discovered devices
(each iteration's `utcnow` stamp is abstracted to the one instant `now`). -/
def merge_devices (store : List Device) (ds : List Device) (now : Nat) :
    List Device :=
  ds.foldl (fun s d => merge_device s d now) store

/-- Number of stored records carrying the given IP address. -/
def count_ip : List Device → String → Nat
  | [], _ => 0
  | d :: t, ip => (if d.ip_address = ip then 1 else 0) + count_ip t ip

/-- A device record with its `updated_at` stamp scrubbed, for stating
idempotence of the merge up to the bookkeeping timestamp. -/
def scrub_updated (d : Device) : Device := { d with updated_at := 0 }

/-- Does `w` match `v` on the vulnerability dedup key
(device identity, title, port)? -/
def vuln_key_matches (w v : Vulnerability) : Bool :=
  w.device_id = v.device_id && w.title = v.title && w.port = v.port

/-- `db.vulnerabilities.find_one({"device_id": .., "title": .., "port": ..})`. -/
def find_vuln_by_key : List Vulnerability → Vulnerability → Option Vulnerability
  | [], _ => none
  | w :: t, v => if vuln_key_matches w v then some w else find_vuln_by_key t v

/-- The per-finding dedup insert of `run_scan` (vulnerability branch):
insert only when no record with the same dedup key exists. -/
def merge_vuln (store : List Vulnerability) (v : Vulnerability) :
    List Vulnerability :=
  match find_vuln_by_key store v with
  | some _ => store
  | none => store ++ [v]

/-- The vulnerability-save loop of `run_scan` over a list of candidates. -/
def merge_vulns (store : List Vulnerability) (vs : List Vulnerability) :
    List Vulnerability :=
  vs.foldl merge_vuln store

/-- Number of stored records matching the dedup key of `v`. -/
def count_key : List Vulnerability → Vulnerability → Nat
  | [], _ => 0
  | w :: t, v => (if vuln_key_matches w v then 1 else 0) + count_key t v

/-! ## ScanOrchestrator job lifecycle (`server.run_scan`) -/

/-- The discovery branch of `run_scan`: mark the job running, run
discovery (which never raises), merge each produced device into the store,
and mark the job completed with its counters and completion stamp. -/
def run_scan_discovery (job : ScanResult) (store : List Device)
    (target : List Char) (options : List (String × Bool)) (env : DiscoveryEnv)
    (t_start t_end : Nat) : ScanResult × List Device :=
  let job := { job with status := ScanStatus.running, started_at := t_start }
  let devices := (discover_network_devices target options env).fst
  let store := merge_devices store devices t_end
  ({ job with status := ScanStatus.completed, completed_at := some t_end,
              devices_discovered := devices.length,
              vulnerabilities_found := 0 }, store)

/-- The `except` branch of `run_scan`: an exception with message `msg`
escaping the job body marks the job failed and records the message
verbatim (`str(e)`) with a completion stamp. -/
def run_scan_fail (job : ScanResult) (msg : String) (t_fail : Nat) : ScanResult :=
  { job with status := ScanStatus.failed, completed_at := some t_fail,
             error_message := some msg }

/-! ## Concrete fixtures used by witnesses and counterexamples -/

/-- The record of a first discovery of `10.0.0.1` (identity `"A"`,
first seen at instant 1). -/
def dev_first : Device :=
  { id := "A", ip_address := "10.0.0.1", last_seen := 1, first_discovered := 1,
    created_at := 1, updated_at := 1 }

/-- A rediscovery of the same IP at instant 9: the profiler builds a fresh
record, so a fresh identity `"B"` and fresh timestamps. -/
def dev_rediscovered : Device :=
  { id := "B", ip_address := "10.0.0.1", hostname := some "host1",
    open_ports := [22], last_seen := 9, first_discovered := 9,
    created_at := 9, updated_at := 9 }

/-- A host matching both the server port signature (80) and the printer
port signature (631) whose hostname mentions "router". -/
def both_sig_router_host : Device :=
  { id := "r1", ip_address := "10.0.0.9", hostname := some "router",
    open_ports := [80, 631], last_seen := 0, first_discovered := 0 }

/-- A vulnerability candidate. -/
def vuln_a : Vulnerability :=
  { id := "v1", device_id := "D", title := "Open Telnet", port := some 23,
    description := "first sighting" }

/-- A second candidate with the same dedup key (device, title, port) but a
different identity and description. -/
def vuln_b : Vulnerability :=
  { id := "v2", device_id := "D", title := "Open Telnet", port := some 23,
    description := "second sighting" }

/-- A scan-job record as created by the submitter. -/
def job0 : ScanResult := { id := "job-1", target := "10.0.0.0/30" }

/-- A host environment whose profiling aborts with an exception. -/
def host_env_fail : HostEnv :=
  { newId := "n1", now := 2, hostname := none, portScan := Except.ok [],
    osScan := Except.ok [], mac := none, unexpected := some "nmap crashed" }

/-- A host environment whose profiling succeeds with one open port. -/
def host_env_ok : HostEnv :=
  { newId := "n2", now := 2, hostname := none,
    portScan := Except.ok
      [{ port := 22, state := "open",
         service := { port := 22, protocol := "tcp", state := "open",
                      name := "ssh", product := "", version := "",
                      extrainfo := "" } }],
    osScan := Except.ok [], mac := none, unexpected := none }

/-- A discovery environment in which both techniques fail outright. -/
def env_all_fail : DiscoveryEnv :=
  { ping := fun _ => Except.error "nmap unavailable",
    isLocal := fun _ => true,
    arp := fun _ => Except.error "arp unavailable",
    inRange := fun _ _ => false,
    host := fun _ => host_env_ok }

/-- A discovery environment in which two hosts answer the ping sweep and
profiling of `10.0.0.1` raises. -/
def env_one_profile_fails : DiscoveryEnv :=
  { ping := fun _ => Except.ok ["10.0.0.1", "10.0.0.2"],
    isLocal := fun _ => false,
    arp := fun _ => Except.ok [],
    inRange := fun _ _ => false,
    host := fun ip => if ip = "10.0.0.1" then host_env_fail else host_env_ok }

/-- A host environment whose OS fingerprint succeeds and whose first match
even carries an explicit `version` entry. -/
def host_env_os : HostEnv :=
  { newId := "n3", now := 3, hostname := none, portScan := Except.ok [],
    osScan := Except.ok
      [[("name", "Linux 5.4"), ("version", "5.4"), ("vendor", "Linux")],
       [("name", "Linux 4.19"), ("version", "4.19"), ("vendor", "Linux")]],
    mac := none, unexpected := none }

/-! ## Classifier theorems (C10, C2) -/

/-- C10: for every Device the classifier's result lies in
{router, server, printer, switch, workstation, unknown} — `mobile` and
`iot` are never produced — and the result depends only on the device's
open-port set (its port membership function) and hostname, not on its
services, OS, or other fields. -/
theorem classifier_range_and_dependence_spec :
    (∀ d : Device,
      classify_device_type d ≠ DeviceType.mobile
      ∧ classify_device_type d ≠ DeviceType.iot
      ∧ classify_device_type d ∈
          [DeviceType.router, DeviceType.server, DeviceType.printer,
           DeviceType.switch, DeviceType.workstation, DeviceType.unknown])
    ∧ (∀ d₁ d₂ : Device,
        (∀ p : Nat, d₁.open_ports.contains p = d₂.open_ports.contains p) →
        d₁.hostname = d₂.hostname →
        classify_device_type d₁ = classify_device_type d₂) := by
  constructor
  · intro d
    cases h1 : router_rule d <;> cases h2 : server_signature d <;>
      cases h3 : printer_signature d <;> cases h4 : switch_rule d <;>
      cases h5 : workstation_signature d <;>
      simp [classify_device_type, h1, h2, h3, h4, h5]
  · intro d₁ d₂ hp hh
    simp only [classify_device_type, router_rule, server_signature,
      printer_signature, switch_rule, workstation_signature, hp, hh]

/-- Witness for C10 at concrete inputs: two devices agreeing on ports and
hostname but differing in services, OS name and MAC classify alike. -/
theorem classifier_range_and_dependence_spec_witness :
    classify_device_type
      { id := "w1", ip_address := "10.0.0.11", open_ports := [22, 80],
        os_name := some "Linux", last_seen := 0, first_discovered := 0 }
    = classify_device_type
      { id := "w2", ip_address := "10.0.0.12", open_ports := [22, 80],
        mac_address := some "aa:bb:cc:dd:ee:ff", os_name := some "Windows",
        last_seen := 5, first_discovered := 5 } :=
  classifier_range_and_dependence_spec.2 _ _ (fun _ => rfl) rfl

/-- C2 counterexample: a device matching both the server port signature
(80) and the printer port signature (631) whose hostname mentions
"router" classifies as `router`, not `server`, because the router rule is
evaluated before the server rule. -/
theorem classifier_router_preempts_server_cx :
    server_signature both_sig_router_host = true
    ∧ printer_signature both_sig_router_host = true
    ∧ classify_device_type both_sig_router_host ≠ DeviceType.server := by
  decide

/-- C2 amended: the classifier is an ordered first-match-wins rule chain:
open ports {22,80} with no hostname classify as server, {631} as printer,
{161} as switch, {} as unknown; and every device matching both the server
and printer port signatures while not satisfying the router rule
classifies as server, because the server rule is evaluated first. -/
theorem classifier_rule_chain_spec :
    (classify_device_type
        { id := "s", ip_address := "10.0.0.2", open_ports := [22, 80],
          last_seen := 0, first_discovered := 0 } = DeviceType.server
      ∧ classify_device_type
        { id := "p", ip_address := "10.0.0.3", open_ports := [631],
          last_seen := 0, first_discovered := 0 } = DeviceType.printer
      ∧ classify_device_type
        { id := "w", ip_address := "10.0.0.4", open_ports := [161],
          last_seen := 0, first_discovered := 0 } = DeviceType.switch
      ∧ classify_device_type
        { id := "u", ip_address := "10.0.0.5", open_ports := [],
          last_seen := 0, first_discovered := 0 } = DeviceType.unknown)
    ∧ ∀ d : Device, server_signature d = true → printer_signature d = true →
        router_rule d = false → classify_device_type d = DeviceType.server := by
  constructor
  · decide
  · intro d hs _hp hr
    simp [classify_device_type, hr, hs]

/-- Witness for C2 (amended) at a concrete device with open ports
{80, 631} and no hostname. -/
theorem classifier_rule_chain_spec_witness :
    classify_device_type
      { id := "x", ip_address := "10.0.0.6", open_ports := [80, 631],
        last_seen := 0, first_discovered := 0 } = DeviceType.server :=
  classifier_rule_chain_spec.2 _ (by decide) (by decide) (by decide)

/-! ## OS detection (C8) -/

/-- C8: profiling with `os_detection` enabled takes the name and vendor of
the first fingerprint match (ignoring the second) but never records an OS
version — `_detect_os` hands over `name`/`accuracy`/`vendor` while
`_scan_device_details` looks up `version`, so `os_version` stays `None`
even when the match carries an explicit version entry; with the option
absent none of the OS fields is populated. -/
theorem os_version_never_recorded :
    (scan_device_details "10.0.0.7" [("os_detection", true)] host_env_os).map
        Device.os_name = some (some "Linux 5.4")
    ∧ (scan_device_details "10.0.0.7" [("os_detection", true)] host_env_os).map
        Device.vendor = some (some "Linux")
    ∧ (scan_device_details "10.0.0.7" [("os_detection", true)] host_env_os).map
        Device.os_version = some none
    ∧ (scan_device_details "10.0.0.7" [] host_env_os).map
        Device.os_name = some none := by
  decide

/-! ## Failure handler of the job runner (C7) -/

/-- C7 counterexample: an exception whose message is the empty string
drives the job to `failed` with an empty error string, so a failed job
does not always carry a non-empty error string. -/
theorem failed_job_empty_error_cx :
    (run_scan_fail job0 "" 5).status = ScanStatus.failed
    ∧ (run_scan_fail job0 "" 5).error_message = some ""
    ∧ ((run_scan_fail job0 "" 5).error_message.getD "x").length = 0 := by
  decide

/-- C7 amended: a job reaching terminal status `failed` carries the
escaping exception's message verbatim together with a completion
timestamp; the stored error string is non-empty whenever the exception
message is non-empty. -/
theorem failed_job_error_recorded_spec :
    ∀ (job : ScanResult) (msg : String) (t : Nat),
      (run_scan_fail job msg t).status = ScanStatus.failed
      ∧ (run_scan_fail job msg t).completed_at = some t
      ∧ (run_scan_fail job msg t).error_message = some msg
      ∧ (msg ≠ "" → (run_scan_fail job msg t).error_message ≠ some "") := by
  intro job msg t
  refine ⟨rfl, rfl, rfl, fun h hcontra => h ?_⟩
  simpa [run_scan_fail] using hcontra

/-- Witness for C7 (amended) at a concrete job and message. -/
theorem failed_job_error_recorded_spec_witness :
    (run_scan_fail job0 "db write refused" 7).status = ScanStatus.failed
    ∧ (run_scan_fail job0 "db write refused" 7).completed_at = some 7
    ∧ (run_scan_fail job0 "db write refused" 7).error_message
        = some "db write refused"
    ∧ (run_scan_fail job0 "db write refused" 7).error_message ≠ some "" :=
  ⟨(failed_job_error_recorded_spec job0 "db write refused" 7).1,
   (failed_job_error_recorded_spec job0 "db write refused" 7).2.1,
   (failed_job_error_recorded_spec job0 "db write refused" 7).2.2.1,
   (failed_job_error_recorded_spec job0 "db write refused" 7).2.2.2 (by decide)⟩

/-! ## Vulnerability dedup lemmas and theorem (C5) -/

theorem vuln_key_matches_refl (v : Vulnerability) : vuln_key_matches v v = true := by
  simp [vuln_key_matches]

theorem vuln_key_matches_congr (v₂ v₁ : Vulnerability)
    (h : vuln_key_matches v₂ v₁ = true) (w : Vulnerability) :
    vuln_key_matches w v₂ = vuln_key_matches w v₁ := by
  simp only [vuln_key_matches, Bool.and_eq_true, decide_eq_true_eq] at h
  obtain ⟨⟨h1, h2⟩, h3⟩ := h
  simp only [vuln_key_matches, h1, h2, h3]

theorem count_key_congr (s : List Vulnerability) (v₂ v₁ : Vulnerability)
    (h : vuln_key_matches v₂ v₁ = true) : count_key s v₂ = count_key s v₁ := by
  induction s with
  | nil => rfl
  | cons w t ih => simp [count_key, ih, vuln_key_matches_congr v₂ v₁ h w]

theorem find_vuln_none_iff (s : List Vulnerability) (v : Vulnerability) :
    find_vuln_by_key s v = none ↔ count_key s v = 0 := by
  induction s with
  | nil => simp [find_vuln_by_key, count_key]
  | cons w t ih =>
    by_cases h : vuln_key_matches w v = true
    · simp [find_vuln_by_key, count_key, h]
    · simp [find_vuln_by_key, count_key, h, ih]

theorem count_key_append (s : List Vulnerability) (v v' : Vulnerability) :
    count_key (s ++ [v]) v'
      = count_key s v' + (if vuln_key_matches v v' = true then 1 else 0) := by
  induction s with
  | nil => simp [count_key]
  | cons w t ih => simp [count_key, ih, Nat.add_assoc]

theorem count_key_merge_le (s : List Vulnerability) (v v' : Vulnerability) :
    count_key (merge_vuln s v) v' ≤ max (count_key s v') 1 := by
  unfold merge_vuln
  cases hf : find_vuln_by_key s v with
  | some w => exact le_max_left _ _
  | none =>
    have h0 : count_key s v = 0 := (find_vuln_none_iff s v).mp hf
    rw [count_key_append]
    by_cases hm : vuln_key_matches v v' = true
    · have he : count_key s v = count_key s v' := count_key_congr s v v' hm
      rw [← he, h0]
      simp [hm]
    · simp [hm]

theorem count_key_merge_vulns_le (vs : List Vulnerability)
    (s : List Vulnerability) (v : Vulnerability) (h : count_key s v ≤ 1) :
    count_key (merge_vulns s vs) v ≤ 1 := by
  induction vs generalizing s with
  | nil => simpa [merge_vulns] using h
  | cons w t ih =>
    have hstep : count_key (merge_vuln s w) v ≤ 1 :=
      le_trans (count_key_merge_le s w v) (max_le h le_rfl)
    simpa [merge_vulns] using ih (merge_vuln s w) hstep

/-- C5: inserting two Vulnerability candidates with an identical dedup key
(device identity, title, port) into an empty-for-that-key store yields
exactly one stored record; a store holding at most one record per key
keeps that bound across every sequence of merges; and a rediscovered
finding whose key is already present is never re-inserted. -/
theorem vulnerability_dedup_spec :
    (∀ (store : List Vulnerability) (v₁ v₂ : Vulnerability),
        vuln_key_matches v₂ v₁ = true → count_key store v₁ = 0 →
        count_key (merge_vulns store [v₁, v₂]) v₁ = 1)
    ∧ (∀ (store vs : List Vulnerability) (v : Vulnerability),
        count_key store v ≤ 1 → count_key (merge_vulns store vs) v ≤ 1)
    ∧ (∀ (store : List Vulnerability) (v : Vulnerability),
        1 ≤ count_key store v → merge_vuln store v = store) := by
  refine ⟨?_, ?_, ?_⟩
  · intro store v₁ v₂ hm h0
    have hf1 : find_vuln_by_key store v₁ = none := (find_vuln_none_iff _ _).mpr h0
    have hs1 : merge_vuln store v₁ = store ++ [v₁] := by simp [merge_vuln, hf1]
    have hc1 : count_key (store ++ [v₁]) v₁ = 1 := by
      rw [count_key_append, h0]
      simp [vuln_key_matches_refl]
    have hc2 : count_key (store ++ [v₁]) v₂ = 1 := by
      rw [count_key_congr (store ++ [v₁]) v₂ v₁ hm]
      exact hc1
    have hs2 : merge_vuln (store ++ [v₁]) v₂ = store ++ [v₁] := by
      unfold merge_vuln
      cases hf : find_vuln_by_key (store ++ [v₁]) v₂ with
      | none =>
        have := (find_vuln_none_iff _ _).mp hf
        rw [hc2] at this
        cases this
      | some w => rfl
    have hall : merge_vulns store [v₁, v₂] = store ++ [v₁] := by
      show merge_vuln (merge_vuln store v₁) v₂ = store ++ [v₁]
      rw [hs1, hs2]
    rw [hall]
    exact hc1
  · intro store vs v h
    exact count_key_merge_vulns_le vs store v h
  · intro store v h
    unfold merge_vuln
    cases hf : find_vuln_by_key store v with
    | none =>
      have := (find_vuln_none_iff _ _).mp hf
      omega
    | some w => rfl

/-- Witness for C5: two concrete candidates sharing a dedup key leave one
record when merged into the empty store, and re-merging an already stored
finding changes nothing. -/
theorem vulnerability_dedup_spec_witness :
    count_key (merge_vulns [] [vuln_a, vuln_b]) vuln_a = 1
    ∧ merge_vuln [vuln_a] vuln_b = [vuln_a] :=
  ⟨vulnerability_dedup_spec.1 [] vuln_a vuln_b (by decide) (by decide),
   vulnerability_dedup_spec.2.2 [vuln_a] vuln_b (by decide)⟩

/-! ## Device upsert lemmas and theorems (C1) -/

theorem merge_device_of_found (M : List Device) (d : Device) (n : Nat)
    (x : Device) (h : find_by_ip M d.ip_address = some x) :
    merge_device M d n = update_first_by_ip M d n := by
  unfold merge_device
  rw [h]

theorem merge_device_of_not_found (M : List Device) (d : Device) (n : Nat)
    (h : find_by_ip M d.ip_address = none) :
    merge_device M d n = M ++ [d] := by
  unfold merge_device
  rw [h]

theorem count_ip_append (s : List Device) (d : Device) (ip : String) :
    count_ip (s ++ [d]) ip
      = count_ip s ip + (if d.ip_address = ip then 1 else 0) := by
  induction s with
  | nil => simp [count_ip]
  | cons x t ih => simp [count_ip, ih, Nat.add_assoc]

theorem find_by_ip_none_iff (s : List Device) (ip : String) :
    find_by_ip s ip = none ↔ count_ip s ip = 0 := by
  induction s with
  | nil => simp [find_by_ip, count_ip]
  | cons x t ih =>
    by_cases h : x.ip_address = ip
    · simp [find_by_ip, count_ip, h]
    · simp [find_by_ip, count_ip, h, ih]

theorem count_ip_update_first (s : List Device) (d : Device) (n : Nat)
    (ip : String) :
    count_ip (update_first_by_ip s d n) ip = count_ip s ip := by
  induction s with
  | nil => rfl
  | cons x t ih =>
    by_cases h : x.ip_address = d.ip_address
    · simp only [update_first_by_ip, h, if_pos, count_ip]
    · simp [update_first_by_ip, h, count_ip, ih]

theorem length_update_first (s : List Device) (d : Device) (n : Nat) :
    (update_first_by_ip s d n).length = s.length := by
  induction s with
  | nil => rfl
  | cons x t ih =>
    by_cases h : x.ip_address = d.ip_address
    · simp [update_first_by_ip, h]
    · simp [update_first_by_ip, h, ih]

theorem find_update_first (s : List Device) (d : Device) (n : Nat) (x : Device)
    (h : find_by_ip s d.ip_address = some x) :
    find_by_ip (update_first_by_ip s d n) d.ip_address
      = some { d with updated_at := n } := by
  induction s with
  | nil => simp [find_by_ip] at h
  | cons y t ih =>
    by_cases hy : y.ip_address = d.ip_address
    · simp [update_first_by_ip, hy, find_by_ip]
    · have h' : find_by_ip t d.ip_address = some x := by
        simpa [find_by_ip, hy] using h
      simp [update_first_by_ip, hy, find_by_ip, ih h']

theorem find_append_some (s : List Device) (d : Device)
    (h : find_by_ip s d.ip_address = none) :
    find_by_ip (s ++ [d]) d.ip_address = some d := by
  induction s with
  | nil => simp [find_by_ip]
  | cons y t ih =>
    by_cases hy : y.ip_address = d.ip_address
    · simp [find_by_ip, hy] at h
    · have h' : find_by_ip t d.ip_address = none := by
        simpa [find_by_ip, hy] using h
      simp [find_by_ip, hy, ih h']

theorem scrub_update_first (s : List Device) (d : Device) (n₂ m : Nat)
    (h : find_by_ip s d.ip_address = some { d with updated_at := m }) :
    (update_first_by_ip s d n₂).map scrub_updated = s.map scrub_updated := by
  induction s with
  | nil => rfl
  | cons y t ih =>
    by_cases hy : y.ip_address = d.ip_address
    · have hy' : y = { d with updated_at := m } := by
        simpa [find_by_ip, hy] using h
      simp [update_first_by_ip, hy, hy', scrub_updated]
    · have h' : find_by_ip t d.ip_address = some { d with updated_at := m } := by
        simpa [find_by_ip, hy] using h
      simp [update_first_by_ip, hy, ih h']

/-- C1 counterexample: rediscovering `10.0.0.1` (stored with identity "A",
first discovered at instant 1) merges a fresh record with identity "B" and
`first_discovered = 9`; the update writes every field of the incoming
record, so the single stored record's id and `first_discovered` change,
and re-merging the same Device advances `updated_at`, not `last_seen`. -/
theorem merge_device_overwrites_identity_cx :
    (merge_device [dev_first] dev_rediscovered 10).map Device.id = ["B"]
    ∧ (merge_device [dev_first] dev_rediscovered 10).map
        Device.first_discovered = [9]
    ∧ dev_first.id = "A" ∧ dev_first.first_discovered = 1
    ∧ (merge_device (merge_device [dev_first] dev_rediscovered 10)
        dev_rediscovered 12).map Device.last_seen = [9]
    ∧ (merge_device (merge_device [dev_first] dev_rediscovered 10)
        dev_rediscovered 12).map Device.updated_at = [12] := by
  decide

/-- C1 amended: for a Device whose IP is already stored, the merge updates
the stored record in place — the record takes every field of the incoming
device (mutable fields and `last_seen` advance, but id and
`first_discovered` are likewise overwritten with the rediscovery's values)
with `updated_at` stamped — leaving exactly one stored record for that IP
and leaving other IPs untouched; merging the same Device twice is
idempotent up to the `updated_at` stamp. -/
theorem merge_device_upsert_spec :
    ∀ (store : List Device) (d : Device) (n : Nat),
      count_ip store d.ip_address ≤ 1 →
      count_ip (merge_device store d n) d.ip_address = 1
      ∧ (∀ ip, ip ≠ d.ip_address →
          count_ip (merge_device store d n) ip = count_ip store ip)
      ∧ (∀ x, find_by_ip store d.ip_address = some x →
          (merge_device store d n).length = store.length
          ∧ find_by_ip (merge_device store d n) d.ip_address
              = some { d with updated_at := n })
      ∧ (∀ n₂, (merge_device (merge_device store d n) d n₂).map scrub_updated
          = (merge_device store d n).map scrub_updated) := by
  intro store d n hinv
  cases hf : find_by_ip store d.ip_address with
  | none =>
    have h0 : count_ip store d.ip_address = 0 := (find_by_ip_none_iff _ _).mp hf
    have hm : merge_device store d n = store ++ [d] :=
      merge_device_of_not_found store d n hf
    refine ⟨?_, ?_, ?_, ?_⟩
    · rw [hm, count_ip_append, h0]
      simp
    · intro ip hip
      rw [hm, count_ip_append, if_neg (fun hc => hip hc.symm)]
      omega
    · intro x hx
      exact Option.noConfusion hx
    · intro n₂
      have hfd : find_by_ip (merge_device store d n) d.ip_address = some d := by
        rw [hm]
        exact find_append_some store d hf
      rw [merge_device_of_found _ d n₂ d hfd]
      exact scrub_update_first _ d n₂ d.updated_at hfd
  | some x0 =>
    have hm : merge_device store d n = update_first_by_ip store d n :=
      merge_device_of_found store d n x0 hf
    have hge : 1 ≤ count_ip store d.ip_address := by
      rcases Nat.eq_zero_or_pos (count_ip store d.ip_address) with h0 | h1
      · rw [(find_by_ip_none_iff _ _).mpr h0] at hf
        cases hf
      · exact h1
    have hcnt : count_ip store d.ip_address = 1 := le_antisymm hinv hge
    refine ⟨?_, ?_, ?_, ?_⟩
    · rw [hm, count_ip_update_first, hcnt]
    · intro ip _hip
      rw [hm, count_ip_update_first]
    · intro x _hx
      refine ⟨?_, ?_⟩
      · rw [hm]
        exact length_update_first store d n
      · rw [hm]
        exact find_update_first store d n x0 hf
    · intro n₂
      have hfd : find_by_ip (merge_device store d n) d.ip_address
          = some { d with updated_at := n } := by
        rw [hm]
        exact find_update_first store d n x0 hf
      rw [merge_device_of_found _ d n₂ _ hfd]
      exact scrub_update_first _ d n₂ n hfd

/-- Witness for C1 (amended) at the concrete two-discovery scenario. -/
theorem merge_device_upsert_spec_witness :
    count_ip (merge_device [dev_first] dev_rediscovered 10)
        dev_rediscovered.ip_address = 1
    ∧ (merge_device (merge_device [dev_first] dev_rediscovered 10)
          dev_rediscovered 12).map scrub_updated
        = (merge_device [dev_first] dev_rediscovered 10).map scrub_updated :=
  ⟨(merge_device_upsert_spec [dev_first] dev_rediscovered 10 (by decide)).1,
   (merge_device_upsert_spec [dev_first] dev_rediscovered 10 (by decide)).2.2.2 12⟩

/-! ## Discovery resilience lemmas and theorems (C6, C9) -/

theorem flatten_of_all_nil {α β : Type} (l : List α) (f : α → List β)
    (h : ∀ r ∈ l, f r = []) : (l.map f).flatten = [] := by
  induction l with
  | nil => rfl
  | cons a t ih =>
    simp only [List.map_cons, List.flatten_cons, h a (List.mem_cons_self a t),
      List.nil_append]
    exact ih (fun r hr => h r (List.mem_cons_of_mem a hr))

theorem range_devices_empty_of_fail (r : List Char)
    (options : List (String × Bool)) (env : DiscoveryEnv)
    (hping : ∃ e, env.ping r = Except.error e)
    (harp : ∃ e, env.arp r = Except.error e) :
    range_devices r options env = [] := by
  obtain ⟨e1, h1⟩ := hping
  obtain ⟨e2, h2⟩ := harp
  simp [range_devices, h1, h2, ping_sweep, arp_scan, mergeResponsive,
    collectHosts]

theorem discover_empty_of_fail (target : List Char)
    (options : List (String × Bool)) (env : DiscoveryEnv)
    (hping : ∀ r, ∃ e, env.ping r = Except.error e)
    (harp : ∀ r, ∃ e, env.arp r = Except.error e) :
    (discover_network_devices target options env).fst = [] := by
  by_cases hp : (parse_target target).isEmpty
  · simp [discover_network_devices, hp]
  · simp only [discover_network_devices, hp, if_neg, Bool.false_eq_true,
      not_false_eq_true]
    exact flatten_of_all_nil _ _
      (fun r _ => range_devices_empty_of_fail r options env (hping r) (harp r))

/-- C6: a discovery job over an environment where both the reachability
probe and the address-resolution lookup fail outright finds zero
responsive hosts and still terminates with status `completed` and
`devices_discovered = 0`, not `failed`; each technique's failure yields
the empty responsive set rather than an error. -/
theorem discovery_zero_hosts_completed_spec :
    (∀ (job : ScanResult) (store : List Device) (target : List Char)
        (options : List (String × Bool)) (env : DiscoveryEnv) (t0 t1 : Nat),
      (∀ r, ∃ e, env.ping r = Except.error e) →
      (∀ r, ∃ e, env.arp r = Except.error e) →
      (run_scan_discovery job store target options env t0 t1).fst.status
          = ScanStatus.completed
      ∧ (run_scan_discovery job store target options env t0 t1).fst.devices_discovered
          = 0
      ∧ (run_scan_discovery job store target options env t0 t1).fst.status
          ≠ ScanStatus.failed)
    ∧ (∀ e : String, ping_sweep (Except.error e) = [])
    ∧ (∀ (e : String) (f : String → Bool), arp_scan (Except.error e) f = []) := by
  refine ⟨?_, fun e => rfl, fun e f => rfl⟩
  intro job store target options env t0 t1 hping harp
  have hdev : (discover_network_devices target options env).fst = [] :=
    discover_empty_of_fail target options env hping harp
  refine ⟨rfl, ?_, by intro h; cases h⟩
  simp [run_scan_discovery, hdev]

/-- Witness for C6 in the concrete all-failing environment. -/
theorem discovery_zero_hosts_completed_spec_witness :
    (run_scan_discovery job0 [] ("10.0.0.0/30".toList) [] env_all_fail 1 2).fst.status
        = ScanStatus.completed
    ∧ (run_scan_discovery job0 [] ("10.0.0.0/30".toList) [] env_all_fail
        1 2).fst.devices_discovered = 0 :=
  ⟨(discovery_zero_hosts_completed_spec.1 job0 [] ("10.0.0.0/30".toList) []
      env_all_fail 1 2 (fun _ => ⟨"nmap unavailable", rfl⟩)
      (fun _ => ⟨"arp unavailable", rfl⟩)).1,
   (discovery_zero_hosts_completed_spec.1 job0 [] ("10.0.0.0/30".toList) []
      env_all_fail 1 2 (fun _ => ⟨"nmap unavailable", rfl⟩)
      (fun _ => ⟨"arp unavailable", rfl⟩)).2.1⟩

theorem collect_skip (hosts : List String) (profile : String → Option Device)
    (ip : String) (h : profile ip = none) :
    collectHosts hosts profile
      = collectHosts (hosts.filter (fun x => x ≠ ip)) profile := by
  induction hosts with
  | nil => rfl
  | cons a t ih =>
    by_cases ha : a = ip
    · subst ha
      simp [collectHosts, h, List.filter_cons, ih]
    · cases hpa : profile a with
      | none => simp [collectHosts, hpa, List.filter_cons, ha, ih]
      | some d => simp [collectHosts, hpa, List.filter_cons, ha, ih]

/-- C9: a responsive host whose profiling aborts with an exception is
simply omitted: the per-host collection over any responsive list equals
the collection over that list with the failing host removed; and the
discovery job completes regardless of per-host outcomes — a single
host's profiling failure never fails the job. -/
theorem profiling_failure_omits_host_spec :
    (∀ (options : List (String × Bool)) (env : DiscoveryEnv) (ip e : String),
      (env.host ip).unexpected = some e →
      ∀ hosts : List String,
        collectHosts hosts (fun h => scan_device_details h options (env.host h))
          = collectHosts (hosts.filter (fun h => h ≠ ip))
              (fun h => scan_device_details h options (env.host h)))
    ∧ (∀ (job : ScanResult) (store : List Device) (target : List Char)
        (options : List (String × Bool)) (env : DiscoveryEnv) (t0 t1 : Nat),
      (run_scan_discovery job store target options env t0 t1).fst.status
        = ScanStatus.completed) := by
  constructor
  · intro options env ip e he hosts
    have hnone : scan_device_details ip options (env.host ip) = none := by
      unfold scan_device_details
      rw [he]
    exact collect_skip hosts _ ip hnone
  · intro job store target options env t0 t1
    rfl

/-- Witness for C9: profiling of `10.0.0.1` raises in the concrete
environment; the host is omitted while `10.0.0.2` is kept, and the
concrete discovery job completes. -/
theorem profiling_failure_omits_host_spec_witness :
    collectHosts ["10.0.0.1", "10.0.0.2"]
        (fun h => scan_device_details h [] (env_one_profile_fails.host h))
      = collectHosts
          (["10.0.0.1", "10.0.0.2"].filter (fun h => h ≠ "10.0.0.1"))
          (fun h => scan_device_details h [] (env_one_profile_fails.host h))
    ∧ (run_scan_discovery job0 [] ("10.0.0.0/30".toList) []
        env_one_profile_fails 1 2).fst.status = ScanStatus.completed :=
  ⟨profiling_failure_omits_host_spec.1 [] env_one_profile_fails "10.0.0.1"
      "nmap crashed" (by decide) ["10.0.0.1", "10.0.0.2"],
   profiling_failure_omits_host_spec.2 job0 [] ("10.0.0.0/30".toList) []
      env_one_profile_fails 1 2⟩

/-! ## String lemmas for the target resolver (C3, C4) -/

theorem pyElem_cons (c x : Char) (t : List Char) :
    pyElem c (x :: t) = (decide (x = c) || pyElem c t) := rfl

theorem pyElem_append (c : Char) (a b : List Char) :
    pyElem c (a ++ b) = (pyElem c a || pyElem c b) := by
  induction a with
  | nil => simp [pyElem]
  | cons x t ih => simp [pyElem_cons, ih, Bool.or_assoc]

theorem pyElem_eq_false_of_digits (c : Char) (hc : c.isDigit = false)
    (l : List Char) (h : l.all Char.isDigit = true) : pyElem c l = false := by
  induction l with
  | nil => rfl
  | cons x t ih =>
    simp only [List.all_cons, Bool.and_eq_true] at h
    simp only [pyElem_cons, ih h.2, Bool.or_false, decide_eq_false_iff_not]
    intro hxc
    subst hxc
    rw [h.1] at hc
    exact Bool.noConfusion hc

theorem rsplitDot_eq_none (l : List Char) (h : pyElem '.' l = false) :
    rsplitDot l = none := by
  induction l with
  | nil => rfl
  | cons c t ih =>
    simp only [pyElem_cons, Bool.or_eq_false_iff, decide_eq_false_iff_not] at h
    simp [rsplitDot, ih h.2, h.1]

theorem rsplitDot_append (l r : List Char) (h : pyElem '.' r = false) :
    rsplitDot (l ++ '.' :: r) = some (l, r) := by
  induction l with
  | nil => simp [rsplitDot, rsplitDot_eq_none r h]
  | cons c t ih => simp [rsplitDot, ih]

theorem pySplit_no_sep (c : Char) (l : List Char) (h : pyElem c l = false) :
    pySplit c l = [l] := by
  induction l with
  | nil => rfl
  | cons x t ih =>
    simp only [pyElem_cons, Bool.or_eq_false_iff, decide_eq_false_iff_not] at h
    simp [pySplit, ih h.2, h.1]

theorem pySplit_append (c : Char) (a b : List Char)
    (ha : pyElem c a = false) (hb : pyElem c b = false) :
    pySplit c (a ++ c :: b) = [a, b] := by
  induction a with
  | nil => simp [pySplit, pySplit_no_sep c b hb]
  | cons x t ih =>
    simp only [pyElem_cons, Bool.or_eq_false_iff, decide_eq_false_iff_not] at ha
    simp [pySplit, ih ha.2, ha.1]

theorem digitsOnly?_digits (l : List Char) (h1 : l ≠ [])
    (h2 : l.all Char.isDigit = true) : digitsOnly? l = some (digitsVal l) := by
  cases l with
  | nil => exact absurd rfl h1
  | cons c t => simp [digitsOnly?, h2]

theorem pyInt?_digits (l : List Char) (h1 : l ≠ [])
    (h2 : l.all Char.isDigit = true) :
    pyInt? l = some ((digitsVal l : Nat) : Int) := by
  cases l with
  | nil => exact absurd rfl h1
  | cons c t =>
    have hcd : c.isDigit = true := by
      simp only [List.all_cons, Bool.and_eq_true] at h2
      exact h2.1
    have hc1 : ¬(c = '-') := fun h => by
      subst h
      exact absurd hcd (by decide)
    have hc2 : ¬(c = '+') := fun h => by
      subst h
      exact absurd hcd (by decide)
    simp [pyInt?, hc1, hc2, digitsOnly?_digits (c :: t) h1 h2]

theorem intRange_eq_nil (a b : Int) (h : b < a) : intRange a b = [] := by
  unfold intRange
  have h0 : (b + 1 - a).toNat = 0 := by omega
  rw [h0]
  rfl

theorem octetValid_parts (l : List Char) (h : octetValid l = true) :
    l ≠ [] ∧ l.all Char.isDigit = true := by
  simp only [octetValid, Bool.and_eq_true, Bool.not_eq_true'] at h
  refine ⟨?_, h.1.2⟩
  intro hl
  rw [hl] at h
  simp at h

/-- Characterization of the range branch of `_parse_target`: for any base
components free of `'/'` and digit strings `S`, `E`, the target
`A.B.C.S-E` expands to one `/32` target per integer from the value of `S`
to the value of `E`, with the base held fixed — with no bounds check on
either value. -/
theorem parse_target_range_expand (A B C S E : List Char)
    (hA : pyElem '/' A = false) (hB : pyElem '/' B = false)
    (hC : pyElem '/' C = false)
    (hS1 : S ≠ []) (hS2 : S.all Char.isDigit = true)
    (hE1 : E ≠ []) (hE2 : E.all Char.isDigit = true) :
    parse_target (A ++ '.' :: (B ++ '.' :: (C ++ '.' :: (S ++ '-' :: E))))
      = (intRange ((digitsVal S : Nat) : Int) ((digitsVal E : Nat) : Int)).map
          (fun i => (A ++ '.' :: (B ++ '.' :: C))
            ++ '.' :: (intToChars i ++ ['/', '3', '2'])) := by
  have hSsl : pyElem '/' S = false :=
    pyElem_eq_false_of_digits '/' (by decide) S hS2
  have hEsl : pyElem '/' E = false :=
    pyElem_eq_false_of_digits '/' (by decide) E hE2
  have hSdot : pyElem '.' S = false :=
    pyElem_eq_false_of_digits '.' (by decide) S hS2
  have hEdot : pyElem '.' E = false :=
    pyElem_eq_false_of_digits '.' (by decide) E hE2
  have hSdash : pyElem '-' S = false :=
    pyElem_eq_false_of_digits '-' (by decide) S hS2
  have hEdash : pyElem '-' E = false :=
    pyElem_eq_false_of_digits '-' (by decide) E hE2
  have hslash : pyElem '/'
      (A ++ '.' :: (B ++ '.' :: (C ++ '.' :: (S ++ '-' :: E)))) = false := by
    simp [pyElem_append, pyElem_cons, hA, hB, hC, hSsl, hEsl]
  have hdash : pyElem '-'
      (A ++ '.' :: (B ++ '.' :: (C ++ '.' :: (S ++ '-' :: E)))) = true := by
    simp [pyElem_append, pyElem_cons]
  have hdot : pyElem '.'
      (A ++ '.' :: (B ++ '.' :: (C ++ '.' :: (S ++ '-' :: E)))) = true := by
    simp [pyElem_append, pyElem_cons]
  have hrdot : pyElem '.' (S ++ '-' :: E) = false := by
    simp [pyElem_append, pyElem_cons, hSdot, hEdot]
  have hsplit : rsplitDot
      (A ++ '.' :: (B ++ '.' :: (C ++ '.' :: (S ++ '-' :: E))))
      = some (A ++ '.' :: (B ++ '.' :: C), S ++ '-' :: E) := by
    have h := rsplitDot_append (A ++ '.' :: (B ++ '.' :: C)) (S ++ '-' :: E) hrdot
    simpa [List.append_assoc, List.cons_append] using h
  have hrdash : pyElem '-' (S ++ '-' :: E) = true := by
    simp [pyElem_append, pyElem_cons]
  have hpieces : pySplit '-' (S ++ '-' :: E) = [S, E] :=
    pySplit_append '-' S E hSdash hEdash
  have hSint : pyInt? S = some ((digitsVal S : Nat) : Int) :=
    pyInt?_digits S hS1 hS2
  have hEint : pyInt? E = some ((digitsVal E : Nat) : Int) :=
    pyInt?_digits E hE1 hE2
  simp [parse_target, hslash, hdash, hdot, hsplit, hrdash, hpieces, hSint, hEint]

/-- C4: every valid hyphenated last-octet range `a.b.c.start-end` with
octets in 0..255 and `start ≤ end` resolves to exactly one `/32` address
per integer in `[start, end]` with the first three octets held fixed;
`10.0.0.5` resolves to the singleton set and `999.1.1.1` fails. -/
theorem parse_target_range_expansion_spec :
    (∀ A B C S E : List Char,
      octetValid A = true → octetValid B = true → octetValid C = true →
      octetValid S = true → octetValid E = true →
      digitsVal S ≤ digitsVal E →
      parse_target (A ++ '.' :: (B ++ '.' :: (C ++ '.' :: (S ++ '-' :: E))))
        = (intRange ((digitsVal S : Nat) : Int) ((digitsVal E : Nat) : Int)).map
            (fun i => (A ++ '.' :: (B ++ '.' :: C))
              ++ '.' :: (intToChars i ++ ['/', '3', '2'])))
    ∧ parse_target ("10.0.0.5".toList) = ["10.0.0.5/32".toList]
    ∧ parse_target ("999.1.1.1".toList) = [] := by
  refine ⟨?_, by decide, by decide⟩
  intro A B C S E hA hB hC hS hE _hle
  obtain ⟨hA1, hA2⟩ := octetValid_parts A hA
  obtain ⟨hB1, hB2⟩ := octetValid_parts B hB
  obtain ⟨hC1, hC2⟩ := octetValid_parts C hC
  obtain ⟨hS1, hS2⟩ := octetValid_parts S hS
  obtain ⟨hE1, hE2⟩ := octetValid_parts E hE
  exact parse_target_range_expand A B C S E
    (pyElem_eq_false_of_digits '/' (by decide) A hA2)
    (pyElem_eq_false_of_digits '/' (by decide) B hB2)
    (pyElem_eq_false_of_digits '/' (by decide) C hC2)
    hS1 hS2 hE1 hE2

/-- Witness for C4 at `10.0.0.1-3`, evaluated to the explicit
three-address expansion. -/
theorem parse_target_range_expansion_spec_witness :
    parse_target ("10.0.0.1-3".toList)
      = ["10.0.0.1/32".toList, "10.0.0.2/32".toList, "10.0.0.3/32".toList] := by
  have h := parse_target_range_expansion_spec.1 ['1', '0'] ['0'] ['0'] ['1'] ['3']
    (by decide) (by decide) (by decide) (by decide) (by decide) (by decide)
  have e1 : "10.0.0.1-3".toList
      = ['1', '0'] ++ '.' :: (['0'] ++ '.' :: (['0'] ++ '.' :: (['1'] ++ '-' :: ['3']))) := by
    decide
  have e2 : (intRange ((digitsVal ['1'] : Nat) : Int) ((digitsVal ['3'] : Nat) : Int)).map
      (fun i => (['1', '0'] ++ '.' :: (['0'] ++ '.' :: ['0']))
        ++ '.' :: (intToChars i ++ ['/', '3', '2']))
      = ["10.0.0.1/32".toList, "10.0.0.2/32".toList, "10.0.0.3/32".toList] := by
    decide
  rw [e1, h, e2]

/-- C3 counterexample: the range expression `10.0.0.250-300` has an
out-of-range end bound yet does not fail: resolution returns a non-empty
expansion that even contains the syntactically invalid address
`10.0.0.300/32`. -/
theorem parse_target_out_of_range_not_rejected_cx :
    parse_target ("10.0.0.250-300".toList) ≠ []
    ∧ ("10.0.0.300/32".toList) ∈ parse_target ("10.0.0.250-300".toList)
    ∧ ipAddressValid ("10.0.0.300".toList) = false := by
  decide

/-- C3 amended: expressions matching none of the accepted forms fail with
an empty resolution (surfaced as an invalid-target error) and never yield
a partially-expanded set — a malformed CIDR, an out-of-range single IP, a
range with too many hyphen pieces, and a plain word all fail, and a range
with `start > end` fails through an empty expansion — but out-of-range
`start`/`end` octets in the range form are NOT rejected: the expansion is
emitted verbatim. -/
theorem parse_target_failure_spec :
    (∀ A B C S E : List Char,
      pyElem '/' A = false → pyElem '/' B = false → pyElem '/' C = false →
      S ≠ [] → S.all Char.isDigit = true →
      E ≠ [] → E.all Char.isDigit = true →
      digitsVal E < digitsVal S →
      parse_target (A ++ '.' :: (B ++ '.' :: (C ++ '.' :: (S ++ '-' :: E)))) = [])
    ∧ parse_target ("10.0.0.300".toList) = []
    ∧ parse_target ("300.0.0.1/24".toList) = []
    ∧ parse_target ("1.2.3.4-5-6".toList) = []
    ∧ parse_target ("abc".toList) = [] := by
  refine ⟨?_, by decide, by decide, by decide, by decide⟩
  intro A B C S E hA hB hC hS1 hS2 hE1 hE2 hlt
  rw [parse_target_range_expand A B C S E hA hB hC hS1 hS2 hE1 hE2]
  rw [intRange_eq_nil _ _ (by exact_mod_cast hlt)]
  rfl

/-- Witness for C3 (amended) at the inverted range `10.0.0.5-3`. -/
theorem parse_target_failure_spec_witness :
    parse_target ("10.0.0.5-3".toList) = [] := by
  have h := parse_target_failure_spec.1 ['1', '0'] ['0'] ['0'] ['5'] ['3']
    (by decide) (by decide) (by decide) (by decide) (by decide) (by decide)
    (by decide) (by decide)
  have e1 : "10.0.0.5-3".toList
      = ['1', '0'] ++ '.' :: (['0'] ++ '.' :: (['0'] ++ '.' :: (['5'] ++ '-' :: ['3']))) := by
    decide
  rw [e1, h]

end SentinelSecure
